import Mathlib

/-!
Verification of the ghost-jobs Signal Aggregation & Scoring Engine.

This file shallowly embeds the scoring core of the repository:
`app/schemas.py` (value types), `app/scoring/ghost_score.py`
(age signal and aggregator), `app/services/heuristic_analysis.py`
(text heuristics), `app/services/company_intel.py` (company
legitimacy rules) and `app/routers/analyze.py` (orchestrator),
and proves the spec's claims about them.

Modelling conventions:
- Python `int` is `Int` (arbitrary precision in both).
- Python strings are `String`; text scanning is performed on `List Char`.
- Enum-valued fields (`type`, `severity`, `label`, `color`) are the
  string literals the Python code uses.
- `datetime.fromisoformat` together with the aware-datetime subtraction
  is modelled by an abstract `parse : String → Option Int` returning the
  posting time as a Unix timestamp in seconds; `none` models a raised
  `ValueError`/`TypeError` (bad format, or a naive datetime whose
  subtraction from the aware `now` raises `TypeError`). `now` is the
  current UTC time in seconds.
- Fallible Python code (an uncaught exception) is an `Except` value.
-/

namespace GhostJobs

/-- `RedFlag` from `app/schemas.py`: an itemized piece of evidence. -/
structure RedFlag where
  type : String
  message : String
  severity : String
deriving DecidableEq, Repr

/-- A `(score_delta, optional_red_flag)` signal tuple, the value every
analyzer emits. -/
abbrev Sig := Int × Option RedFlag

/-- `GhostScore` from `app/schemas.py`. -/
structure GhostScore where
  score : Int
  label : String
  color : String
deriving DecidableEq, Repr

/-- `JobMetadata` from `app/schemas.py`. -/
structure JobMetadata where
  url : String
  title : String
  company : String
  postedDate : Option String
  rawText : String
  platform : String
deriving DecidableEq, Repr

/-- `AnalysisResult` from `app/schemas.py`: the terminal artifact. -/
structure AnalysisResult where
  jobUrl : String
  ghostScore : GhostScore
  redFlags : List RedFlag
  analyzedAt : String
  companyName : String
  jobTitle : String
deriving DecidableEq, Repr

/-! ### Tunable weights and thresholds (`ghost_score.py`) -/

def WEIGHT_AGE_OLD : Int := 30
def WEIGHT_AGE_MEDIUM : Int := 15
def SCORE_CAP : Int := 100
def THRESHOLD_GHOST : Int := 70
def THRESHOLD_SUSPICIOUS : Int := 40

/-! ### Age signal (`_calculate_age_delta` in `ghost_score.py`) -/

/-- Embeds `_calculate_age_delta(posted_date)`.  Python's
`if not posted_date` catches both `None` and the empty string.  The
`try` block parses the date and computes
`days_old = (now - posted).days`; `timedelta.days` floors, which is
`Int.fdiv` on second-resolution timestamps.  Any `ValueError` /
`TypeError` (modelled by `parse s = none`) falls through to
`(0, None)`. -/
def _calculate_age_delta (parse : String → Option Int) (now : Int)
    (posted_date : Option String) : Sig :=
  match posted_date with
  | none => (0, none)
  | some s =>
    if s = "" then (0, none)
    else
      match parse s with
      | none => (0, none)
      | some posted =>
        let days_old : Int := (now - posted).fdiv 86400
        if days_old > 60 then
          (WEIGHT_AGE_OLD, some ⟨"age",
            "Posted " ++ toString days_old ++
              " days ago — stale listings often indicate ghost jobs",
            "high"⟩)
        else if days_old > 30 then
          (WEIGHT_AGE_MEDIUM, some ⟨"age",
            "Posted " ++ toString days_old ++
              " days ago — listing is aging",
            "medium"⟩)
        else (0, none)

/-! ### Aggregator (`calculate_ghost_score` in `ghost_score.py`) -/

/-- One loop step of the aggregator:
`score += delta; if flag: red_flags.append(flag)`. -/
def applySignal (acc : Int × List RedFlag) (s : Sig) : Int × List RedFlag :=
  (acc.1 + s.1,
    match s.2 with
    | some f => acc.2 ++ [f]
    | none => acc.2)

/-- Embeds `calculate_ghost_score(metadata, job_url, parity, financial,
llm, heuristics)`.  The signals are consumed in source order (age,
parity, financial, llm, then each heuristic tuple), the summed score is
clamped by `max(0, min(score, SCORE_CAP))` and the label and color are
derived from the clamped score.  `nowIso` stands for the
`datetime.now(timezone.utc).isoformat()` string. -/
def calculate_ghost_score (parse : String → Option Int) (now : Int)
    (nowIso : String) (metadata : JobMetadata) (job_url : String)
    (parity financial llm : Sig) (heuristics : Option (List Sig)) :
    AnalysisResult :=
  let age := _calculate_age_delta parse now metadata.postedDate
  let acc1 := applySignal (0, []) age
  let acc2 := applySignal acc1 parity
  let acc3 := applySignal acc2 financial
  let acc4 := applySignal acc3 llm
  let acc5 := (heuristics.getD []).foldl applySignal acc4
  let score := max 0 (min acc5.1 SCORE_CAP)
  let lc : String × String :=
    if score ≥ THRESHOLD_GHOST then ("ghost", "red")
    else if score ≥ THRESHOLD_SUSPICIOUS then ("suspicious", "yellow")
    else ("safe", "green")
  { jobUrl := job_url
    ghostScore := { score := score, label := lc.1, color := lc.2 }
    redFlags := acc5.2
    analyzedAt := nowIso
    companyName := metadata.company
    jobTitle := metadata.title }

/-! ### Text scanning core

Python matches phrases with `in` (substring containment) and small
regexes with `re.search` / `re.findall`.  The regexes used by this
repository are simple enough that each one is translated directly into
a scanner over `List Char`; each translation is noted at its use site.
All matching is done on `.lower()`-cased text where the source does so.
-/

/-- Character list of a string. -/
abbrev Chars := List Char

/-- Python `str.lower()` (the texts involved are ASCII). -/
def strLower (s : String) : String := ⟨s.data.map Char.toLower⟩

/-- Python `\s` / `str.split()` whitespace (ASCII portion). -/
def pyWs (c : Char) : Bool :=
  c = ' ' || c = '\t' || c = '\n' || c = '\r' || c = '\x0b' || c = '\x0c'

/-- Drop a maximal (possibly empty) whitespace run: the regex `\s*`. -/
def dropWs : Chars → Chars
  | [] => []
  | c :: rest => if pyWs c then dropWs rest else c :: rest

/-- Python `str.strip()` (the texts involved are ASCII). -/
def pyStrip (s : String) : String :=
  ⟨((s.data.dropWhile pyWs).reverse.dropWhile pyWs).reverse⟩

/-- Python slicing `s[:n]`. -/
def pyTake (n : Nat) (s : String) : String := ⟨s.data.take n⟩

/-- Python `str.split(sep)` for a nonempty separator: pieces between
non-overlapping left-to-right separator occurrences (fuel-bounded; each
step consumes at least one character).  `acc` holds the reversed
current piece. -/
def splitOnAux (sep : Chars) : Nat → Chars → Chars → List Chars
  | _, acc, [] => [acc.reverse]
  | 0, acc, rest => [acc.reverse ++ rest]
  | fuel + 1, acc, c :: rest =>
    if sep.isPrefixOf (c :: rest) then
      acc.reverse :: splitOnAux sep fuel [] ((c :: rest).drop sep.length)
    else splitOnAux sep fuel (c :: acc) rest

/-- Python `s.split(sep)`. -/
def pySplitOn (sep : String) (s : String) : List String :=
  (splitOnAux sep.data (s.data.length + 1) [] s.data).map fun l => ⟨l⟩

/-- Substring containment: Python `needle in haystack`. -/
def hasSub (needle : Chars) : Chars → Bool
  | [] => needle.isEmpty
  | c :: rest => needle.isPrefixOf (c :: rest) || hasSub needle rest

/-- Phrase containment on a pre-lowered text. -/
def containsPhrase (lowText : Chars) (phrase : String) : Bool :=
  hasSub phrase.data lowText

/-- How many phrases of a list occur in the text:
`sum(1 for p in phrases if p in text_lower)`. -/
def countHits (phrases : List String) (lowText : Chars) : Nat :=
  phrases.countP (containsPhrase lowText)

/-- A matcher consumes a pattern occurrence at the head of the input and
returns the rest, or fails. -/
abbrev Pat := Chars → Option Chars

/-- Literal pattern. -/
def litP (pat : String) : Pat := fun cs =>
  if pat.data.isPrefixOf cs then some (cs.drop pat.data.length) else none

/-- Sequencing of two matchers. -/
def seqP (m1 m2 : Pat) : Pat := fun cs => (m1 cs).bind m2

/-- Greedy optional pattern `(...)?`.  Only used where consuming the
optional part can never make the rest of the pattern fail when skipping
it would succeed (checked per pattern at the use site). -/
def optP (m : Pat) : Pat := fun cs => (m cs).getD cs |> some

/-- Ordered alternation `(a|b|...)`, first match wins.  Only used where
at most one branch can match or nothing after the group constrains the
choice (checked per pattern at the use site); branches needing
backtracking are expanded with their continuation inside `altP`. -/
def altP (ms : List Pat) : Pat := fun cs =>
  match ms with
  | [] => none
  | m :: rest => match m cs with
    | some r => some r
    | none => altP rest cs

/-- `\s*` as a matcher. -/
def wsStar : Pat := fun cs => some (dropWs cs)

/-- `\s+`: at least one whitespace character, greedy. -/
def wsPlus : Pat := fun cs =>
  match cs with
  | [] => none
  | c :: rest => if pyWs c then some (dropWs rest) else none

/-- A single character satisfying a predicate (a character class). -/
def classP (p : Char → Bool) : Pat := fun cs =>
  match cs with
  | [] => none
  | c :: rest => if p c then some rest else none

/-- Maximal run of characters satisfying `p`; returns (run, rest). -/
def takeRun (p : Char → Bool) : Chars → Chars × Chars
  | [] => ([], [])
  | c :: rest =>
    if p c then
      let pr := takeRun p rest
      (c :: pr.1, pr.2)
    else ([], c :: rest)

/-- Greedy nonempty run (`\d+`, `[\d,]+`): maximal run, at least one
character; returns (run, rest). -/
def run1 (p : Char → Bool) (cs : Chars) : Option (Chars × Chars) :=
  let pr := takeRun p cs
  if pr.1.isEmpty then none else some pr

/-- `re.search`: does the matcher succeed at some start position
(including the end-of-string position)? -/
def searchFrom (m : Chars → Bool) : Chars → Bool
  | [] => m []
  | c :: rest => m (c :: rest) || searchFrom m rest

/-- `re.search` for a `Pat`. -/
def reSearch (m : Pat) (cs : Chars) : Bool :=
  searchFrom (fun t => (m t).isSome) cs

/-- Sequence of literal-alternation groups joined by `\s+`
(e.g. `talent\s+(pool|community|network)`).  The patterns fed to this
helper only have alternatives in their final group, so ordered
alternation without backtracking is exact. -/
def wordSeq : List (List String) → Pat
  | [] => fun cs => some cs
  | [g] => altP (g.map litP)
  | g :: rest => seqP (altP (g.map litP)) (seqP wsPlus (wordSeq rest))

/-! ### Heuristic Text Analyzer (`app/services/heuristic_analysis.py`) -/

def WEIGHT_VAGUE_TITLE : Int := 10
def WEIGHT_BOILERPLATE_HEAVY : Int := 15
def WEIGHT_NO_SPECIFICS : Int := 12
def WEIGHT_EXCESSIVE_REQUIREMENTS : Int := 10
def WEIGHT_REPOST_SIGNALS : Int := 15
def WEIGHT_KITCHEN_SINK : Int := 12
def WEIGHT_SHORT_JD : Int := 10
def WEIGHT_SALARY_RED_FLAG : Int := 8
def WEIGHT_APPLICATION_RED_FLAG : Int := 10
def WEIGHT_URGENCY_MANIPULATION : Int := 8
def WEIGHT_COPY_PASTE_ARTIFACTS : Int := 12

def BOILERPLATE_PHRASES : List String := [
  "fast-paced environment", "dynamic team", "passionate individual",
  "self-starter", "wear many hats", "hit the ground running",
  "rockstar", "ninja", "guru", "synergy", "think outside the box",
  "go-getter", "team player", "excellent communication skills",
  "detail-oriented", "results-driven", "work hard play hard",
  "like a family", "competitive salary", "exciting opportunity",
  "unique opportunity", "world-class", "best-in-class",
  "move the needle", "leverage", "circle back", "low-hanging fruit",
  "bandwidth", "alignment", "take ownership", "proactive",
  "strong work ethic", "able to thrive", "other duties as assigned",
  "duties as needed", "flexible schedule required",
  "comfortable with ambiguity", "bias for action", "sense of urgency"]

def REPOST_SIGNALS : List String := [
  "reposted", "re-posted", "updated posting", "previously listed",
  "ongoing recruitment", "continuous posting", "evergreen", "pipeline",
  "talent pool", "always accepting", "rolling basis",
  "open until filled", "continuous recruitment"]

def KITCHEN_SINK_TECHS : List String := [
  "java", "python", "javascript", "typescript", "c++", "c#", "ruby",
  "go", "rust", "scala", "kotlin", "swift", "php", "perl",
  "react", "angular", "vue", "svelte", "next.js", "nuxt",
  "node.js", "django", "flask", "spring", "rails",
  "aws", "azure", "gcp", "kubernetes", "docker", "terraform",
  "mongodb", "postgresql", "mysql", "redis", "elasticsearch",
  "kafka", "rabbitmq", "graphql", "rest",
  "machine learning", "deep learning", "nlp", "computer vision",
  "tensorflow", "pytorch", "spark", "hadoop"]

def APPLICATION_RED_FLAGS : List String := [
  "apply on company website", "send resume to", "email your resume",
  "apply via email", "no phone calls", "do not contact",
  "no recruiters"]

def URGENCY_PHRASES : List String := [
  "apply immediately", "position will be filled quickly",
  "don\x27t miss this opportunity", "limited time", "act fast",
  "apply today", "urgent hire", "immediate need", "asap",
  "time-sensitive"]

/-- `_count_boilerplate(text)`. -/
def _count_boilerplate (text : String) : Nat :=
  countHits BOILERPLATE_PHRASES (strLower text).data

/-- The first `VAGUE_TITLE_PATTERNS` entry,
`^(associate|specialist|coordinator|representative|analyst)$`: with
both anchors on the stripped lowered title this is exact equality with
one of the alternatives. -/
def VAGUE_EXACT : List String :=
  ["associate", "specialist", "coordinator", "representative", "analyst"]

/-- `_is_vague_title(title)`: `re.search` of each `VAGUE_TITLE_PATTERNS`
regex against `title.lower().strip()`.  Each unanchored pattern is a
sequence of literal-alternation groups joined by `\s+`. -/
def _is_vague_title (title : String) : Bool :=
  let t := pyStrip (strLower title)
  let tl := t.data
  VAGUE_EXACT.contains t ||
  reSearch (wordSeq [["various"], ["positions", "roles", "openings"]]) tl ||
  reSearch (wordSeq [["multiple"], ["positions", "roles", "openings"]]) tl ||
  reSearch (wordSeq [["general"], ["application"]]) tl ||
  reSearch (wordSeq [["talent"], ["pool", "community", "network"]]) tl ||
  reSearch (wordSeq [["future"],
    ["opening", "role", "opportunity", "consideration"]]) tl ||
  reSearch (wordSeq [["expression"], ["of"], ["interest"]]) tl ||
  reSearch (wordSeq [["team"], ["member"]]) tl ||
  reSearch (wordSeq [["brand"], ["ambassador"]]) tl

/-- `_has_repost_signals(text)`. -/
def _has_repost_signals (text : String) : Bool :=
  REPOST_SIGNALS.any (containsPhrase (strLower text).data)

/-- `_count_tech_requirements(text)`. -/
def _count_tech_requirements (text : String) : Nat :=
  countHits KITCHEN_SINK_TECHS (strLower text).data

/-- `_word_count(text)`: `len(text.split())`, i.e. the number of
maximal non-whitespace runs. -/
def _word_count (text : String) : Nat :=
  ((text.data.splitOnP pyWs).filter (fun w => !w.isEmpty)).length

/-- Digit-or-comma class `[\d,]`. -/
def isDigitComma (c : Char) : Bool := c.isDigit || c = ','

/-- Specificity regex 1:
`\d+\s*(years?|months?)\s*(of)?\s*(experience|exp)`.  `years?` /
`months?` expand to ordered alternatives with the longer form first
(greedy `s?`); consuming the optional `(of)?` greedily is exact here
because `of` is a prefix of none of `experience`/`exp` and cannot be
followed into a match after skipping. -/
def specYearsExp : Pat :=
  seqP (fun cs => (run1 Char.isDigit cs).map Prod.snd) (seqP wsStar
    (seqP (altP [litP "years", litP "year", litP "months", litP "month"])
      (seqP wsStar (seqP (optP (litP "of"))
        (seqP wsStar (altP [litP "experience", litP "exp"]))))))

/-- Specificity regex 6: `(q[1-4]|quarter)`. -/
def specQuarter : Pat :=
  altP [seqP (litP "q") (classP (fun c => c = '1' || c = '2' || c = '3' || c = '4')),
    litP "quarter"]

/-- Specificity regex 7: `(series [a-d]|seed|ipo)`. -/
def specFunding : Pat :=
  altP [seqP (litP "series ") (classP (fun c => 'a' ≤ c && c ≤ 'd')),
    litP "seed", litP "ipo"]

/-- `_has_specifics(text)`: at least 2 of the 11 specificity regexes
match `text.lower()`.  Each regex is translated beside its entry. -/
def _has_specifics (text : String) : Bool :=
  let tl := (strLower text).data
  let checks : List Bool := [
    -- `\d+\s*(years?|months?)\s*(of)?\s*(experience|exp)`
    reSearch specYearsExp tl,
    -- `\$[\d,]+`
    reSearch (seqP (litP "$") (fun cs => (run1 isDigitComma cs).map Prod.snd)) tl,
    -- `\d+%`
    reSearch (seqP (fun cs => (run1 Char.isDigit cs).map Prod.snd) (litP "%")) tl,
    -- `team of \d+`
    reSearch (seqP (litP "team of ") (fun cs => (run1 Char.isDigit cs).map Prod.snd)) tl,
    -- `report(ing)? to`
    reSearch (seqP (litP "report") (seqP (optP (litP "ing")) (litP " to"))) tl,
    -- `(q[1-4]|quarter)`
    reSearch specQuarter tl,
    -- `(series [a-d]|seed|ipo)`
    reSearch specFunding tl,
    -- `\d+ (employees|people|engineers|developers)`
    reSearch (seqP (fun cs => (run1 Char.isDigit cs).map Prod.snd) (seqP (litP " ")
      (altP [litP "employees", litP "people", litP "engineers", litP "developers"]))) tl,
    -- `(slack|jira|confluence|notion|figma|linear|asana|monday)`
    reSearch (altP [litP "slack", litP "jira", litP "confluence", litP "notion",
      litP "figma", litP "linear", litP "asana", litP "monday"]) tl,
    -- `(annual|quarterly) review`
    reSearch (seqP (altP [litP "annual", litP "quarterly"]) (litP " review")) tl,
    -- `\d+\s*(direct reports|headcount)`
    reSearch (seqP (fun cs => (run1 Char.isDigit cs).map Prod.snd) (seqP wsStar
      (altP [litP "direct reports", litP "headcount"]))) tl]
  (checks.countP id) ≥ 2

/-- Value of a nonempty digit string. -/
def digitsToNat (ds : Chars) : Nat :=
  ds.foldl (fun a c => 10 * a + (c.toNat - 48)) 0

/-- One attempted match of the experience regex
`(\d+)\+?\s*(?:years?|yrs?)\s*(?:of)?\s*(?:experience|exp)` at the head
of the input; on success returns the captured number and the rest after
the match end.  The alternations expand greedily as in `specYearsExp`. -/
def expMatchAt (cs : Chars) : Option (Nat × Chars) :=
  (run1 Char.isDigit cs).bind fun pr =>
    ((optP (litP "+") pr.2).bind (fun a => (wsStar a).bind (fun b =>
      (altP [litP "years", litP "year", litP "yrs", litP "yr"] b).bind (fun c =>
        (wsStar c).bind (fun d => (optP (litP "of") d).bind (fun e =>
          (wsStar e).bind (altP [litP "experience", litP "exp"]))))))).map
      (fun rest => (digitsToNat pr.1, rest))

/-- `re.findall` scan for the experience regex: left-to-right,
non-overlapping, resuming at each match end.  The fuel starts at the
input length, which bounds the number of scan steps. -/
def findAllExp : Nat → Chars → List Nat
  | 0, _ => []
  | _ + 1, [] => []
  | fuel + 1, c :: rest =>
    match expMatchAt (c :: rest) with
    | some (v, rest2) => v :: findAllExp fuel rest2
    | none => findAllExp fuel rest

/-- `re.findall(r"(\d+)\+?\s*(?:years?|yrs?)\s*(?:of)?\s*(?:experience|exp)",
raw_text.lower())` returning the captured numbers. -/
def expMatches (raw_text : String) : List Nat :=
  let tl := (strLower raw_text).data
  findAllExp tl.length tl

/-! ### Salary detection (`_detect_salary_issues`) -/

/-- The optional thousands suffix `(?:k|K|,000)?` of the salary regex:
the branches start with distinct characters, so ordered alternation is
exact; skipping never beats consuming because no separator or `\s`
starts with `k`, `K` or `,`. -/
def kSuffix : Pat := optP (altP [litP "k", litP "K", litP ",000"])

/-- One attempted match of the salary-range regex
`\$\s*([\d,]+)\s*(?:k|K|,000)?\s*(?:-|to|–)\s*\$\s*([\d,]+)\s*(?:k|K|,000)?`
at the head of the input.  On success returns both captures (as the
maximal `[\d,]+` runs, which is what the greedy groups capture) and the
rest after the match end (the trailing `\s*(?:k|K|,000)?` is part of
the consumed span). -/
def matchSalaryAt (cs : Chars) : Option ((String × String) × Chars) :=
  (litP "$" cs).bind fun a =>
  (wsStar a).bind fun b =>
  (run1 isDigitComma b).bind fun lowPr =>
  (wsStar lowPr.2).bind fun c =>
  (kSuffix c).bind fun d =>
  (wsStar d).bind fun e =>
  (altP [litP "-", litP "to", litP "–"] e).bind fun f =>
  (wsStar f).bind fun g =>
  (litP "$" g).bind fun h =>
  (wsStar h).bind fun i =>
  (run1 isDigitComma i).bind fun highPr =>
  (wsStar highPr.2).bind fun j =>
  (kSuffix j).map fun rest =>
  ((⟨lowPr.1⟩, ⟨highPr.1⟩), rest)

/-- `re.findall` scan for salary ranges (fuel-bounded as in
`findAllExp`; every match consumes at least one character). -/
def scanSalary : Nat → Chars → List (String × String)
  | 0, _ => []
  | _ + 1, [] => []
  | fuel + 1, c :: rest =>
    match matchSalaryAt (c :: rest) with
    | some (cap, rest2) => cap :: scanSalary fuel rest2
    | none => scanSalary fuel rest

/-- All salary-range capture pairs of the text (the `salary_ranges`
list; scanned on the original, un-lowered text as in the source). -/
def findSalaryRanges (text : String) : List (String × String) :=
  scanSalary text.data.length text.data

/-- Python `int(s.replace(",", ""))` for a `[\d,]+` capture: strip the
commas and read the digits; an all-comma capture leaves an empty string
and `int("")` raises `ValueError` (modelled as `none`). -/
def pyIntDigits (s : String) : Option Int :=
  let ds := s.data.filter (fun c => c ≠ ',')
  if ds.isEmpty then none else some (digitsToNat ds : Nat)

/-- Digit grouping of Python's format spec `{n:,}` for a nonnegative
number: commas every three digits from the right (fuel-bounded on the
digit count). -/
def groupRev : Nat → Chars → Chars
  | 0, l => l
  | _ + 1, [] => []
  | fuel + 1, l =>
    let chunk := l.take 3
    let rest := l.drop 3
    if rest.isEmpty then chunk else chunk ++ ',' :: groupRev fuel rest

/-- Python `f"{n:,}"` for the (nonnegative) normalized amounts. -/
def pyComma (n : Int) : String :=
  let ds := (toString n.natAbs).data
  let s : String := ⟨(groupRev ds.length ds.reverse).reverse⟩
  if n < 0 then "-" ++ s else s

/-- Python `f"{high/low:.1f}"` (one decimal of the float ratio),
modelled by rounding the exact rational `10*high/low` to the nearest
integer with ties to even — exact for all amounts below the 2^53 float
precision limit; requires `low > 0`. -/
def ratioStr (high low : Int) : String :=
  let q := (10 * high) / low
  let r := (10 * high) % low
  let t := if 2 * r > low then q + 1
    else if 2 * r < low then q
    else if q % 2 = 0 then q else q + 1
  toString (t / 10) ++ "." ++ toString (t % 10)

/-- The `if low < 1000: low *= 1000` normalization: amounts under 1000
are in thousands notation. -/
def normAmount (n : Int) : Int := if n < 1000 then n * 1000 else n

/-- Loop body of the `for low_str, high_str in salary_ranges` loop: the
parsed, normalized range either raises (`ValueError` on an all-comma
capture), yields the strong or weak compensation signal (both branches
`break`), or yields nothing (loop continues).  `high/low >= 3.0` on
floats is modelled exactly as `3 * low ≤ high` (`low > 0`). -/
def rangeStep (r : String × String) : Except Unit (Option Sig) :=
  match pyIntDigits r.1, pyIntDigits r.2 with
  | some l0, some h0 =>
    let low := normAmount l0
    let high := normAmount h0
    if 0 < high ∧ 0 < low then
      if 3 * low ≤ high then
        .ok (some (WEIGHT_SALARY_RED_FLAG, some ⟨"compensation",
          "Salary range is extremely wide ($" ++ pyComma low ++ "–$" ++
            pyComma high ++ ", a " ++ ratioStr high low ++
            "x spread) — vague compensation suggests the role is not well-defined",
          "medium"⟩))
      else if 2 * low ≤ high then
        .ok (some (WEIGHT_SALARY_RED_FLAG / 2, some ⟨"compensation",
          "Salary range is broad ($" ++ pyComma low ++ "–$" ++
            pyComma high ++ ") — may indicate the role scope is unclear",
          "low"⟩))
      else .ok none
    else .ok none
  | _, _ => .error ()

/-- The whole range loop: first range that yields a signal wins
(`break`); a raising range aborts. -/
def salaryLoop : List (String × String) → Except Unit (Option Sig)
  | [] => .ok none
  | r :: rest =>
    match rangeStep r with
    | .error e => .error e
    | .ok (some s) => .ok (some s)
    | .ok none => salaryLoop rest

/-- `re.search(r"\$\s*[\d,]+", text)` (on the original text). -/
def hasDollarAmount (text : String) : Bool :=
  reSearch (seqP (litP "$") (seqP wsStar
    (fun cs => (run1 isDigitComma cs).map Prod.snd))) text.data

/-- `\bdoe\b`: the literal `doe` with a word boundary on each side
(`\w` is `[a-zA-Z0-9_]` for this ASCII text). -/
def isWordChar (c : Char) : Bool := c.isAlphanum || c = '_'

/-- Scan for `\bdoe\b`, tracking the previous character. -/
def searchDoe : Option Char → Chars → Bool
  | _, [] => false
  | prev, c :: rest =>
    (match litP "doe" (c :: rest) with
     | some after =>
       (match prev with | none => true | some p => !isWordChar p) &&
       (match after.head? with | none => true | some n => !isWordChar n)
     | none => false) ||
    searchDoe (some c) rest

/-- The hidden-compensation block of `_detect_salary_issues`:
`"competitive"` together with `"salary"` or `"compensation"` present,
but no `\$\s*[\d,]+` amount anywhere. -/
def competitiveSig (text : String) : List Sig :=
  let tl := (strLower text).data
  if hasSub "competitive".data tl &&
      (hasSub "salary".data tl || hasSub "compensation".data tl) &&
      !hasDollarAmount text then
    [((WEIGHT_SALARY_RED_FLAG / 2 : Int), some (⟨"compensation",
      "Claims \x27competitive salary\x27 but provides no actual numbers — lack of pay transparency is a red flag",
      "low"⟩ : RedFlag))]
  else []

/-- The DOE-with-no-range block of `_detect_salary_issues`. -/
def doeSig (text : String) : List Sig :=
  let tl := (strLower text).data
  let has_doe := searchDoe none tl ||
    hasSub "depends on experience".data tl ||
    hasSub "commensurate with experience".data tl ||
    hasSub "based on experience".data tl
  if has_doe && !hasDollarAmount text then
    [((WEIGHT_SALARY_RED_FLAG / 2 : Int), some (⟨"compensation",
      "Compensation listed as \x27depends on experience\x27 with no range — common in ghost postings that aren\x27t budgeted",
      "low"⟩ : RedFlag))]
  else []

/-- `_detect_salary_issues(text)`: range realism, hidden compensation
and DOE-with-no-range rules, in source order. -/
def _detect_salary_issues (text : String) : Except Unit (List Sig) :=
  match salaryLoop (findSalaryRanges text) with
  | .error e => .error e
  | .ok rangeSig => .ok (rangeSig.toList ++ competitiveSig text ++ doeSig text)

/-- `_detect_application_red_flags(text)`: counts of fixed phrase sets,
each rule firing at 2 or more hits, in source order. -/
def _detect_application_red_flags (text : String) : List Sig :=
  let tl := (strLower text).data
  let redirect_count := countHits APPLICATION_RED_FLAGS tl
  let a :=
    if redirect_count ≥ 2 then
      [(WEIGHT_APPLICATION_RED_FLAG, some (⟨"structure",
        "Application process has multiple red flags (external redirects, email-only, no-contact policies)",
        "medium"⟩ : RedFlag))]
    else []
  let urgency_count := countHits URGENCY_PHRASES tl
  let b :=
    if urgency_count ≥ 2 then
      [(WEIGHT_URGENCY_MANIPULATION, some (⟨"structure",
        "Uses " ++ toString urgency_count ++
          " urgency phrases to pressure quick applications — legitimate roles don\x27t need high-pressure tactics",
        "medium"⟩ : RedFlag))]
    else []
  a ++ b

/-- The placeholder regexes of `_detect_copy_paste_artifacts`, each
translated beside its entry; matched against `text.lower()`. -/
def placeholderPats : List Pat := [
  -- `\[company\s*name\]`
  seqP (litP "[company") (seqP wsStar (litP "name]")),
  -- `\[insert\s`
  seqP (litP "[insert") (classP pyWs),
  -- `\{company\}`
  litP "\x7bcompany\x7d",
  -- `<company>`
  litP "<company>",
  litP "lorem ipsum",
  litP "xxx",
  -- `\[tbd\]`
  litP "[tbd]",
  -- `\[fill in\]`
  litP "[fill in]"]

/-- The duplicate-paragraph pass: paragraphs are the `"\n\n"`-separated
chunks, stripped, kept when longer than 50 characters; each paragraph
whose first 100 lowered characters were already seen adds one signal. -/
def dupParagraphCount : List String → List String → Nat → Nat
  | [], _, acc => acc
  | p :: rest, seen, acc =>
    let normalized := pyTake 100 (pyStrip (strLower p))
    if seen.contains normalized then
      dupParagraphCount rest (normalized :: seen) (acc + 1)
    else dupParagraphCount rest (normalized :: seen) acc

/-- `_detect_copy_paste_artifacts(text)`: placeholder hits score 2
each, duplicated long paragraphs 1 each; 2 or more signals trigger the
flag. -/
def _detect_copy_paste_artifacts (text : String) : Option Sig :=
  let tl := (strLower text).data
  let placeholderSignals :=
    2 * (placeholderPats.countP (fun m => reSearch m tl))
  let paragraphs := ((pySplitOn "\n\n" text).map pyStrip).filter
    (fun p => p.length > 50)
  let signals := placeholderSignals + dupParagraphCount paragraphs [] 0
  if signals ≥ 2 then
    some (WEIGHT_COPY_PASTE_ARTIFACTS, some (⟨"sentiment",
      "Job description contains copy-paste artifacts (placeholder text, duplicate sections) — likely recycled from a template",
      "high"⟩ : RedFlag))
  else none

/-- Embeds `heuristic_analysis(raw_text, title)` (async in the source,
pure in its inputs).  `if not raw_text` short-circuits to the empty
list; otherwise the ten rule blocks run in source order and their
signals are concatenated.  The only fallible part is the salary-range
loop (`int("")` on an all-comma capture), modelled by `Except`. -/
def heuristic_analysis (raw_text title : String) : Except Unit (List Sig) :=
  if raw_text = "" then .ok []
  else
    let word_count := _word_count raw_text
    -- 1. Vague title check
    let r1 :=
      if _is_vague_title title then
        [(WEIGHT_VAGUE_TITLE, some (⟨"sentiment",
          "Job title \x27" ++ title ++
            "\x27 is vague or suggests a talent pool, not a real opening",
          "medium"⟩ : RedFlag))]
      else []
    -- 2. Boilerplate density
    let boilerplate_count := _count_boilerplate raw_text
    let r2 :=
      if boilerplate_count ≥ 6 then
        [(WEIGHT_BOILERPLATE_HEAVY, some (⟨"sentiment",
          "Job description contains " ++ toString boilerplate_count ++
            " generic buzzword phrases — likely a template",
          "high"⟩ : RedFlag))]
      else if boilerplate_count ≥ 3 then
        [(WEIGHT_BOILERPLATE_HEAVY / 2, some (⟨"sentiment",
          "Job description contains " ++ toString boilerplate_count ++
            " common buzzword phrases",
          "medium"⟩ : RedFlag))]
      else []
    -- 3. Lack of specifics
    let r3 :=
      if word_count > 100 ∧ !_has_specifics raw_text then
        [(WEIGHT_NO_SPECIFICS, some (⟨"sentiment",
          "No concrete details found — no team size, metrics, projects, or specific deliverables mentioned",
          "medium"⟩ : RedFlag))]
      else []
    -- 4. Kitchen-sink requirements
    let tech_count := _count_tech_requirements raw_text
    let r4 :=
      if tech_count ≥ 12 then
        [(WEIGHT_KITCHEN_SINK, some (⟨"sentiment",
          "Lists " ++ toString tech_count ++
            " distinct technologies — unrealistic requirements suggest a placeholder listing",
          "high"⟩ : RedFlag))]
      else if tech_count ≥ 8 then
        [(WEIGHT_KITCHEN_SINK / 2, some (⟨"sentiment",
          "Lists " ++ toString tech_count ++
            " distinct technologies — unusually broad requirements",
          "medium"⟩ : RedFlag))]
      else []
    -- 5. Repost/evergreen signals
    let r5 :=
      if _has_repost_signals raw_text then
        [(WEIGHT_REPOST_SIGNALS, some (⟨"age",
          "Posting contains language suggesting it is recycled, evergreen, or a talent pipeline",
          "high"⟩ : RedFlag))]
      else []
    -- 6. Extremely short JD
    let r6 :=
      if 0 < word_count ∧ word_count < 80 then
        [(WEIGHT_SHORT_JD, some (⟨"sentiment",
          "Job description is only " ++ toString word_count ++
            " words — too brief to be a real, detailed listing",
          "medium"⟩ : RedFlag))]
      else []
    -- 7. Excessive years of experience
    let exp_ms := expMatches raw_text
    let r7 :=
      if exp_ms ≠ [] then
        let max_exp := exp_ms.foldl max 0
        let title_lower := (strLower title).data
        let is_junior_mid := ["junior", "jr", "entry", "associate", "intern"].any
          (containsPhrase title_lower)
        if max_exp ≥ 10 ∧ is_junior_mid then
          [(WEIGHT_EXCESSIVE_REQUIREMENTS, some (⟨"structure",
            "Requires " ++ toString max_exp ++
              "+ years experience for a junior/mid-level title — contradictory requirements",
            "high"⟩ : RedFlag))]
        else if max_exp ≥ 15 then
          [(WEIGHT_EXCESSIVE_REQUIREMENTS, some (⟨"structure",
            "Requires " ++ toString max_exp ++
              "+ years experience — extremely high bar may indicate a pre-selected candidate",
            "medium"⟩ : RedFlag))]
        else []
      else []
    -- 8. Salary / compensation analysis (the only fallible step)
    match _detect_salary_issues raw_text with
    | .error e => .error e
    | .ok r8 =>
      -- 9. Application process red flags
      let r9 := _detect_application_red_flags raw_text
      -- 10. Copy-paste artifacts
      let r10 := (_detect_copy_paste_artifacts raw_text).toList
      .ok (r1 ++ r2 ++ r3 ++ r4 ++ r5 ++ r6 ++ r7 ++ r8 ++ r9 ++ r10)

/-! ### Company Legitimacy Analyzer (`app/services/company_intel.py`) -/

def WEIGHT_NO_WEB_PRESENCE : Int := 15
def WEIGHT_STAFFING_AGENCY : Int := 12
def WEIGHT_CONTROVERSIAL_MODEL : Int := 10
def WEIGHT_TINY_COMPANY_BIG_HIRE : Int := 8
def WEIGHT_HIGH_TURNOVER_SIGNALS : Int := 10

def STAFFING_KEYWORDS : List String := [
  "staffing", "recruiting", "recruitment", "talent acquisition",
  "temp agency", "temporary staffing", "contract staffing",
  "manpower", "outsourcing", "consulting firm",
  "placement agency", "employment agency", "headhunter",
  "body shop", "contracting", "staff augmentation"]

def FREELANCE_RELIANCE_KEYWORDS : List String := [
  "freelance", "1099", "independent contractor", "gig",
  "per diem", "on-call", "as-needed basis", "project-based",
  "no benefits", "no health insurance", "unpaid internship"]

def TURNOVER_SIGNALS : List String := [
  "high growth", "rapidly scaling", "constant change",
  "high-pressure", "must be available 24/7", "on call",
  "unlimited pto", "startup mentality",
  "we work hard and play hard", "we\x27re like a family",
  "hustle", "grind"]

def KNOWN_STAFFING_FIRMS : List String := [
  "robert half", "adecco", "randstad", "manpower", "kelly services",
  "hays", "michael page", "kforce", "insight global", "tek systems",
  "teksystems", "aerotek", "modis", "apex systems", "cybercoders",
  "dice", "toptal", "upwork", "fiverr", "belay", "boldly",
  "staffmark", "spherion", "express employment", "jobot",
  "nesco resource", "yoh", "judge group", "collabera",
  "infosys bpo", "wipro", "tata consultancy", "cognizant",
  "hcl technologies", "tech mahindra", "capgemini"]

/-- Helper for `.*` (greedy over non-newline characters): does the
continuation match at some position reachable without crossing a
newline? -/
def searchNoNl (m : Chars → Bool) : Chars → Bool
  | [] => m []
  | c :: rest => m (c :: rest) || (c ≠ '\n' && searchNoNl m rest)

/-- The `client_patterns` regex set of `_is_staffing_agency`, each
translated beside its entry.  Alternation groups followed by further
pattern text are expanded with their continuation so the ordered-first
match has full backtracking fidelity. -/
def clientPats (tl : Chars) : Bool :=
  -- `on behalf of`, `our client`, `client company`: literals
  hasSub "on behalf of".data tl ||
  hasSub "our client".data tl ||
  hasSub "client company".data tl ||
  -- `client is (a|an|seeking)`: nothing follows the group
  reSearch (seqP (litP "client is ")
    (altP [litP "a", litP "an", litP "seeking"])) tl ||
  -- `hiring for (a|an|our) client`: continuation inside each branch
  reSearch (seqP (litP "hiring for ")
    (altP [seqP (litP "a") (litP " client"),
           seqP (litP "an") (litP " client"),
           seqP (litP "our") (litP " client")])) tl ||
  -- `direct hire .* client`: `.` excludes newlines
  searchFrom (fun t =>
    match litP "direct hire " t with
    | some after =>
      searchNoNl (fun u => (litP " client" u).isSome) after
    | none => false) tl

/-- `_is_staffing_agency(company, raw_text)`. -/
def _is_staffing_agency (company raw_text : String) : Bool :=
  let company_lower := (strLower company).data
  let tl := (strLower raw_text).data
  KNOWN_STAFFING_FIRMS.any (fun firm => hasSub firm.data company_lower) ||
  countHits STAFFING_KEYWORDS tl ≥ 2 ||
  clientPats tl

/-- `_detect_freelance_reliance(raw_text)`. -/
def _detect_freelance_reliance (raw_text : String) : Nat :=
  countHits FREELANCE_RELIANCE_KEYWORDS (strLower raw_text).data

/-- `_detect_turnover_signals(raw_text)`. -/
def _detect_turnover_signals (raw_text : String) : Nat :=
  countHits TURNOVER_SIGNALS (strLower raw_text).data

/-- The company-research collaborator result consumed by
`company_intel` (the `news_info` dict of `_search_company_info`; its
`articles` entry is never read by the rules).  `articleCount = -1` is
the unavailable/unconfigured sentinel the collaborator returns when no
API key is set. -/
structure NewsInfo where
  articleCount : Int
  hasControversy : Bool
  controversyHeadline : String
deriving DecidableEq, Repr

/-- The `cth_patterns` regex set, translated beside each entry.
`[- ]` is a two-character class; alternation branches have distinct
first characters and nothing after their group, so ordered alternation
is exact. -/
def cthMatch (tl : Chars) : Bool :=
  let dashSpace := classP (fun c => c = '-' || c = ' ')
  -- `contract[- ]to[- ]hire`
  reSearch (seqP (litP "contract") (seqP dashSpace (seqP (litP "to")
    (seqP dashSpace (litP "hire"))))) tl ||
  -- `temp[- ]to[- ]perm`
  reSearch (seqP (litP "temp") (seqP dashSpace (seqP (litP "to")
    (seqP dashSpace (litP "perm"))))) tl ||
  -- `contract with (possibility|option) (of|to)`
  reSearch (seqP (litP "contract with ")
    (seqP (altP [litP "possibility", litP "option"])
      (seqP (litP " ") (altP [litP "of", litP "to"])))) tl ||
  -- `potential for (full[- ]time|permanent|conversion)`
  reSearch (seqP (litP "potential for ")
    (altP [seqP (litP "full") (seqP dashSpace (litP "time")),
           litP "permanent", litP "conversion"])) tl

/-- The flag of the no-web-presence rule (`articleCount == 0`). -/
def noWebPresenceFlag (company : String) : RedFlag :=
  ⟨"company",
    "No news coverage found for \x27" ++ company ++
      "\x27 — company may be too new, too small, or fictitious",
    "medium"⟩

/-- Embeds `company_intel(company, raw_text, title)` (async in the
source).  The awaited `_search_company_info(company)` network call is
the injected collaborator result `news_info`, per the spec's analyzer
signature `analyze(company, rawText, title, companyResearch)`.
`if not company` short-circuits to the empty list; otherwise the rule
blocks run in source order and their signals are concatenated. -/
def company_intel (company raw_text title : String)
    (news_info : NewsInfo) : List Sig :=
  if company = "" then []
  else
    -- 1. Staffing agency detection
    let r1 :=
      if _is_staffing_agency company raw_text then
        [(WEIGHT_STAFFING_AGENCY, some (⟨"company",
          "\x27" ++ company ++
            "\x27 appears to be a staffing agency or outsourcing firm — the actual employer is hidden",
          "high"⟩ : RedFlag))]
      else []
    -- 2. Freelance/contractor reliance
    let freelance_count := _detect_freelance_reliance raw_text
    let r2 :=
      if freelance_count ≥ 3 then
        [(WEIGHT_CONTROVERSIAL_MODEL, some (⟨"company",
          "Role has " ++ toString freelance_count ++
            " signals of freelance/contractor classification — may not be a real employee position",
          "high"⟩ : RedFlag))]
      else if freelance_count ≥ 1 then
        [(WEIGHT_CONTROVERSIAL_MODEL / 2, some (⟨"company",
          "Role mentions freelance or independent contractor terms — verify employment classification",
          "medium"⟩ : RedFlag))]
      else []
    -- 3. High-turnover culture signals
    let turnover_count := _detect_turnover_signals raw_text
    let r3 :=
      if turnover_count ≥ 3 then
        [(WEIGHT_HIGH_TURNOVER_SIGNALS, some (⟨"company",
          "Job posting contains " ++ toString turnover_count ++
            " high-turnover culture signals (hustle culture, always-on expectations)",
          "medium"⟩ : RedFlag))]
      else []
    -- 4. News-based intelligence: no web presence at all
    let r4 :=
      if news_info.articleCount = 0 then
        [(WEIGHT_NO_WEB_PRESENCE, some (noWebPresenceFlag company))]
      else []
    -- Controversy detected
    let r5 :=
      if news_info.hasControversy then
        [(WEIGHT_CONTROVERSIAL_MODEL, some (⟨"company",
          "Company linked to controversy: " ++
            pyTake 120 news_info.controversyHeadline,
          "high"⟩ : RedFlag))]
      else []
    -- 5. Role vs. company mismatch heuristics
    let tl := (strLower raw_text).data
    let title_lower := (strLower title).data
    let is_senior_role := ["vp", "vice president", "director", "head of",
      "chief", "c-suite", "cto", "cfo", "coo"].any (containsPhrase title_lower)
    let is_tiny := countHits ["small team", "startup", "early stage",
      "seed stage", "pre-revenue", "founding"] tl ≥ 2
    let r6 :=
      if is_senior_role && is_tiny then
        [(WEIGHT_TINY_COMPANY_BIG_HIRE, some (⟨"structure",
          "Senior leadership role at a very early-stage company — role may be aspirational rather than an active hire",
          "medium"⟩ : RedFlag))]
      else []
    -- 6. Contract-to-hire / temp-to-perm patterns (first match only)
    let r7 :=
      if cthMatch tl then
        [((5 : Int), some (⟨"structure",
          "Contract-to-hire arrangement — conversion is not guaranteed and companies often cycle contractors without hiring",
          "low"⟩ : RedFlag))]
      else []
    r1 ++ r2 ++ r3 ++ r4 ++ r5 ++ r6 ++ r7

/-! ### Orchestrator (`analyze_job` in `app/routers/analyze.py`)

`asyncio.gather(..., return_exceptions=True)` delivers, for each of the
six producer tasks, either its value or the exception it raised; this
outcome is an `Except String` value here.  The whole `try` body after
the fan-in can itself raise — the only remaining raiser being the
aggregation — so the aggregator is passed as an `Except`-valued
function and the `except` clause is the `.error` branch. -/

structure AnalyzeRequest where
  url : String
  metadata : JobMetadata
deriving DecidableEq, Repr

/-- `x if not isinstance(x, Exception) else (0, None)` for the scalar
producers. -/
def scalarOr : Except String Sig → Sig
  | .ok s => s
  | .error _ => (0, none)

/-- The list producers contribute their signals only when they neither
raised nor returned an empty list; a raised producer contributes
nothing, exactly like an empty list. -/
def listOr : Except String (List Sig) → List Sig
  | .ok l => l
  | .error _ => []

/-- Embeds `analyze_job(request)` given the six producer outcomes and
an aggregator.  The real aggregator never fails
(`fun m u p f l h => Except.ok (calculate_ghost_score ...)`); an
`.error` models `calculate_ghost_score` raising, answered by the
degraded result of the `except` clause. -/
def analyze_job
    (agg : JobMetadata → String → Sig → Sig → Sig → Option (List Sig) →
      Except String AnalysisResult)
    (nowIso : String) (request : AnalyzeRequest)
    (parity_result financial_result llm_result : Except String Sig)
    (heuristic_results company_results llm_deep_results :
      Except String (List Sig)) : AnalysisResult :=
  let all_extra_signals :=
    listOr heuristic_results ++ listOr company_results ++
      listOr llm_deep_results
  match agg request.metadata request.url (scalarOr parity_result)
      (scalarOr financial_result) (scalarOr llm_result)
      (if all_extra_signals.isEmpty then none else some all_extra_signals) with
  | .ok result => result
  | .error e =>
    { jobUrl := request.url
      ghostScore := { score := 0, label := "safe", color := "green" }
      redFlags := [⟨"parity", "Analysis error: " ++ e, "low"⟩]
      analyzedAt := nowIso
      companyName := request.metadata.company
      jobTitle := request.metadata.title }

/-! ### Completion-order model

The six producer tasks complete in an arbitrary order; `asyncio.gather`
keys each outcome by its argument position, not by completion time.  A
fan-in is a list of `(task index, outcome)` completion events; reading
a slot returns the outcome recorded for that index. -/

/-- The outcome a completed task delivered: a scalar signal, a signal
list, or the exception it raised. -/
inductive TaskOut where
  | scalar (s : Sig)
  | many (l : List Sig)
  | failed (e : String)
deriving DecidableEq, Repr

/-- The outcome recorded for task `i` (first completion event with that
index, if any). -/
def slotOf : List (Nat × TaskOut) → Nat → Option TaskOut
  | [], _ => none
  | p :: rest, i => if p.1 = i then some p.2 else slotOf rest i

/-- A scalar slot as the orchestrator consumes it (a missing or
mistyped slot degrades to the neutral signal, as a failure does). -/
def slotSig : Option TaskOut → Except String Sig
  | some (.scalar s) => .ok s
  | some (.failed e) => .error e
  | _ => .error ""

/-- A list slot as the orchestrator consumes it. -/
def slotSigs : Option TaskOut → Except String (List Sig)
  | some (.many l) => .ok l
  | some (.failed e) => .error e
  | _ => .error ""

/-- The orchestrated analysis as a function of the completion-event
list, with slots 0-5 holding parity, financial, llm, heuristic,
company and deep-llm outcomes. -/
def resultOfCompletions (parse : String → Option Int) (now : Int)
    (nowIso : String) (request : AnalyzeRequest)
    (events : List (Nat × TaskOut)) : AnalysisResult :=
  analyze_job
    (fun m u p f l h => .ok (calculate_ghost_score parse now nowIso m u p f l h))
    nowIso request
    (slotSig (slotOf events 0)) (slotSig (slotOf events 1))
    (slotSig (slotOf events 2)) (slotSigs (slotOf events 3))
    (slotSigs (slotOf events 4)) (slotSigs (slotOf events 5))

/-! ## Theorems -/

/-- Unfolding of the aggregation loop: deltas are summed and present
flags are appended in order. -/
theorem foldl_applySignal (l : List Sig) (s : Int) (fl : List RedFlag) :
    l.foldl applySignal (s, fl) =
      (s + (l.map Prod.fst).sum, fl ++ l.filterMap Prod.snd) := by
  induction l generalizing s fl with
  | nil => simp
  | cons a t ih =>
    obtain ⟨d, f⟩ := a
    cases f <;> simp [applySignal, ih, add_assoc]

/-- C1: for every well-typed input (metadata, jobUrl, parity, financial,
llm signals and any list of extra (delta, flag) signals, including
negative deltas), the score field of the GhostScore in the
AnalysisResult returned by calculate_ghost_score satisfies
0 ≤ score ≤ 100. -/
theorem C1_score_clamped (parse : String → Option Int) (now : Int)
    (nowIso : String) (metadata : JobMetadata) (job_url : String)
    (parity financial llm : Sig) (heuristics : Option (List Sig)) :
    0 ≤ (calculate_ghost_score parse now nowIso metadata job_url parity
        financial llm heuristics).ghostScore.score ∧
      (calculate_ghost_score parse now nowIso metadata job_url parity
        financial llm heuristics).ghostScore.score ≤ 100 := by
  simp only [calculate_ghost_score, SCORE_CAP]
  constructor <;> omega

/-- C2: the label and color of the GhostScore produced by
calculate_ghost_score are a pure total function of the clamped score
with fixed thresholds: clamped score ≥ 70 gives ghost/red,
40 ≤ score < 70 gives suspicious/yellow, and score < 40 gives
safe/green (so 70 is ghost/red, 69 and 40 suspicious/yellow, 39 and 0
safe/green). -/
theorem C2_label_color_thresholds (parse : String → Option Int)
    (now : Int) (nowIso : String) (metadata : JobMetadata)
    (job_url : String) (parity financial llm : Sig)
    (heuristics : Option (List Sig)) :
    (70 ≤ (calculate_ghost_score parse now nowIso metadata job_url parity
        financial llm heuristics).ghostScore.score →
      (calculate_ghost_score parse now nowIso metadata job_url parity
        financial llm heuristics).ghostScore.label = "ghost" ∧
      (calculate_ghost_score parse now nowIso metadata job_url parity
        financial llm heuristics).ghostScore.color = "red") ∧
    (40 ≤ (calculate_ghost_score parse now nowIso metadata job_url parity
        financial llm heuristics).ghostScore.score ∧
      (calculate_ghost_score parse now nowIso metadata job_url parity
        financial llm heuristics).ghostScore.score < 70 →
      (calculate_ghost_score parse now nowIso metadata job_url parity
        financial llm heuristics).ghostScore.label = "suspicious" ∧
      (calculate_ghost_score parse now nowIso metadata job_url parity
        financial llm heuristics).ghostScore.color = "yellow") ∧
    ((calculate_ghost_score parse now nowIso metadata job_url parity
        financial llm heuristics).ghostScore.score < 40 →
      (calculate_ghost_score parse now nowIso metadata job_url parity
        financial llm heuristics).ghostScore.label = "safe" ∧
      (calculate_ghost_score parse now nowIso metadata job_url parity
        financial llm heuristics).ghostScore.color = "green") := by
  simp only [calculate_ghost_score, THRESHOLD_GHOST, THRESHOLD_SUSPICIOUS,
    SCORE_CAP]
  split_ifs with h1 h2 <;>
    refine ⟨fun h => ?_, fun h => ?_, fun h => ?_⟩ <;>
    first
      | exact ⟨rfl, rfl⟩
      | (exfalso; omega)

/-- C2 witness: concrete inputs reaching clamped scores 70, 40 and 0
exercise all three threshold bands. -/
theorem C2_label_color_thresholds_witness :
    ((calculate_ghost_score (fun _ => none) 0 ""
        ⟨"u", "t", "c", none, "x", "unknown"⟩ "u" (70, none) (0, none)
        (0, none) none).ghostScore.label = "ghost" ∧
      (calculate_ghost_score (fun _ => none) 0 ""
        ⟨"u", "t", "c", none, "x", "unknown"⟩ "u" (70, none) (0, none)
        (0, none) none).ghostScore.color = "red") ∧
    ((calculate_ghost_score (fun _ => none) 0 ""
        ⟨"u", "t", "c", none, "x", "unknown"⟩ "u" (40, none) (0, none)
        (0, none) none).ghostScore.label = "suspicious" ∧
      (calculate_ghost_score (fun _ => none) 0 ""
        ⟨"u", "t", "c", none, "x", "unknown"⟩ "u" (40, none) (0, none)
        (0, none) none).ghostScore.color = "yellow") ∧
    ((calculate_ghost_score (fun _ => none) 0 ""
        ⟨"u", "t", "c", none, "x", "unknown"⟩ "u" (0, none) (0, none)
        (0, none) none).ghostScore.label = "safe" ∧
      (calculate_ghost_score (fun _ => none) 0 ""
        ⟨"u", "t", "c", none, "x", "unknown"⟩ "u" (0, none) (0, none)
        (0, none) none).ghostScore.color = "green") :=
  ⟨(C2_label_color_thresholds (fun _ => none) 0 ""
      ⟨"u", "t", "c", none, "x", "unknown"⟩ "u" (70, none) (0, none)
      (0, none) none).1 (by decide),
   (C2_label_color_thresholds (fun _ => none) 0 ""
      ⟨"u", "t", "c", none, "x", "unknown"⟩ "u" (40, none) (0, none)
      (0, none) none).2.1 (by decide),
   (C2_label_color_thresholds (fun _ => none) 0 ""
      ⟨"u", "t", "c", none, "x", "unknown"⟩ "u" (0, none) (0, none)
      (0, none) none).2.2 (by decide)⟩

/-- C3: calculate_ghost_score is total by construction (it is a plain
function into AnalysisResult), and on the all-neutral input — every
scalar signal (0, none), no extra signals, and a missing or unparseable
posted date — it returns score 0, label safe, color green and an empty
redFlags list. -/
theorem C3_all_neutral (parse : String → Option Int) (now : Int)
    (nowIso : String) (metadata : JobMetadata) (job_url : String)
    (hpd : ∀ s, metadata.postedDate = some s → s = "" ∨ parse s = none) :
    calculate_ghost_score parse now nowIso metadata job_url (0, none)
        (0, none) (0, none) none =
      ⟨job_url, ⟨0, "safe", "green"⟩, [], nowIso, metadata.company,
        metadata.title⟩ := by
  have hage : _calculate_age_delta parse now metadata.postedDate = (0, none) := by
    cases h : metadata.postedDate with
    | none => simp [_calculate_age_delta]
    | some s =>
      rcases hpd s h with h1 | h1 <;>
        simp [_calculate_age_delta, h1]
  simp [calculate_ghost_score, hage, applySignal, SCORE_CAP,
    THRESHOLD_GHOST, THRESHOLD_SUSPICIOUS]

/-- C3 witness: a missing posted date and an unparseable posted date
both yield the all-neutral result. -/
theorem C3_all_neutral_witness :
    calculate_ghost_score (fun _ => none) 0 "t0"
        ⟨"u", "t", "c", none, "x", "unknown"⟩ "u" (0, none) (0, none)
        (0, none) none =
      ⟨"u", ⟨0, "safe", "green"⟩, [], "t0", "c", "t"⟩ ∧
    calculate_ghost_score (fun _ => none) 0 "t0"
        ⟨"u", "t", "c", some "not-a-date", "x", "unknown"⟩ "u" (0, none)
        (0, none) (0, none) none =
      ⟨"u", ⟨0, "safe", "green"⟩, [], "t0", "c", "t"⟩ :=
  ⟨C3_all_neutral (fun _ => none) 0 "t0"
      ⟨"u", "t", "c", none, "x", "unknown"⟩ "u"
      (fun s h => by cases h),
   C3_all_neutral (fun _ => none) 0 "t0"
      ⟨"u", "t", "c", some "not-a-date", "x", "unknown"⟩ "u"
      (fun s h => Or.inr rfl)⟩

/-- C4: the orchestrator always yields a structurally valid
AnalysisResult: a failed scalar producer is interchangeable with one
returning the neutral (0, none), a failed list producer with one
returning [], the other outcomes untouched; and when aggregation itself
fails the orchestrator returns the degraded result — score 0, label
safe (color green), exactly one low-severity flag whose message carries
the error description — instead of propagating. -/
theorem C4_orchestrator_degrades
    (agg : JobMetadata → String → Sig → Sig → Sig → Option (List Sig) →
      Except String AnalysisResult)
    (nowIso : String) (request : AnalyzeRequest)
    (pR fR lR : Except String Sig)
    (hR cR dR : Except String (List Sig)) (e : String) :
    (analyze_job agg nowIso request (.error e) fR lR hR cR dR =
      analyze_job agg nowIso request (.ok (0, none)) fR lR hR cR dR) ∧
    (analyze_job agg nowIso request pR (.error e) lR hR cR dR =
      analyze_job agg nowIso request pR (.ok (0, none)) lR hR cR dR) ∧
    (analyze_job agg nowIso request pR fR (.error e) hR cR dR =
      analyze_job agg nowIso request pR fR (.ok (0, none)) hR cR dR) ∧
    (analyze_job agg nowIso request pR fR lR (.error e) cR dR =
      analyze_job agg nowIso request pR fR lR (.ok []) cR dR) ∧
    (analyze_job agg nowIso request pR fR lR hR (.error e) dR =
      analyze_job agg nowIso request pR fR lR hR (.ok []) dR) ∧
    (analyze_job agg nowIso request pR fR lR hR cR (.error e) =
      analyze_job agg nowIso request pR fR lR hR cR (.ok [])) ∧
    ((analyze_job (fun _ _ _ _ _ _ => .error e) nowIso request
        pR fR lR hR cR dR).ghostScore = ⟨0, "safe", "green"⟩ ∧
      (analyze_job (fun _ _ _ _ _ _ => .error e) nowIso request
        pR fR lR hR cR dR).redFlags =
        [⟨"parity", "Analysis error: " ++ e, "low"⟩] ∧
      (analyze_job (fun _ _ _ _ _ _ => .error e) nowIso request
        pR fR lR hR cR dR).jobUrl = request.url) :=
  ⟨rfl, rfl, rfl, rfl, rfl, rfl, rfl, rfl, rfl⟩

/-- Reading a slot is invariant under permuting the completion events,
provided each task index completed at most once. -/
theorem slotOf_perm : ∀ {l l' : List (Nat × TaskOut)}, l.Perm l' →
    (l.map Prod.fst).Nodup → ∀ i, slotOf l i = slotOf l' i := by
  intro l l' h
  induction h with
  | nil => intro _ i; rfl
  | cons x h ih =>
    intro hnd i
    simp only [List.map_cons, List.nodup_cons] at hnd
    simp only [slotOf, ih hnd.2]
  | swap x y l =>
    intro hnd i
    simp only [List.map_cons, List.nodup_cons, List.mem_cons] at hnd
    have hxy : y.1 ≠ x.1 := fun hxx => hnd.1 (Or.inl hxx)
    simp only [slotOf]
    by_cases h1 : x.1 = i <;> by_cases h2 : y.1 = i <;>
      simp [h1, h2]
    exact absurd (h2.trans h1.symm) hxy
  | trans h₁ h₂ ih₁ ih₂ =>
    intro hnd i
    rw [ih₁ hnd i, ih₂ (((h₁.map Prod.fst).nodup_iff).mp hnd) i]

/-- C5: the redFlags list built by calculate_ghost_score is the fixed
canonical concatenation — age flag, then parity, financial,
sentiment/LLM, then the flags of the extra heuristic/company/deep
signals in list order; and the orchestrated result is identical for any
permutation of the completion order of the six concurrent tasks. -/
theorem C5_canonical_flag_order (parse : String → Option Int) (now : Int)
    (nowIso : String) (metadata : JobMetadata) (job_url : String)
    (parity financial llm : Sig) (heuristics : Option (List Sig))
    (request : AnalyzeRequest) :
    (calculate_ghost_score parse now nowIso metadata job_url parity
        financial llm heuristics).redFlags =
      (_calculate_age_delta parse now metadata.postedDate).2.toList ++
        parity.2.toList ++ financial.2.toList ++ llm.2.toList ++
        (heuristics.getD []).filterMap Prod.snd ∧
    (∀ events events' : List (Nat × TaskOut), events.Perm events' →
      (events.map Prod.fst).Nodup →
      resultOfCompletions parse now nowIso request events =
        resultOfCompletions parse now nowIso request events') := by
  constructor
  · obtain ⟨pd, pf⟩ := parity
    obtain ⟨fd, ff⟩ := financial
    obtain ⟨ld, lf⟩ := llm
    simp only [calculate_ghost_score, foldl_applySignal]
    rcases hage : _calculate_age_delta parse now metadata.postedDate with ⟨ad, af⟩
    cases af <;> cases pf <;> cases ff <;> cases lf <;>
      simp [applySignal, Option.toList, foldl_applySignal]
  · intro events events' h hnd
    simp only [resultOfCompletions, slotOf_perm h hnd]

/-- C5 witness: the canonical order at a concrete signal set, and
invariance at a concrete pair of completion orders. -/
theorem C5_canonical_flag_order_witness :
    (calculate_ghost_score (fun _ => none) 0 "t0"
        ⟨"u", "t", "c", none, "x", "unknown"⟩ "u"
        (25, some ⟨"parity", "p", "high"⟩) (0, none)
        (10, some ⟨"sentiment", "s", "medium"⟩)
        (some [(5, some ⟨"company", "h", "low"⟩)])).redFlags =
      (_calculate_age_delta (fun _ => none) 0 (none : Option String)).2.toList ++
        (some (⟨"parity", "p", "high"⟩ : RedFlag)).toList ++
        (none : Option RedFlag).toList ++
        (some (⟨"sentiment", "s", "medium"⟩ : RedFlag)).toList ++
        ([(5, some ⟨"company", "h", "low"⟩)] : List Sig).filterMap Prod.snd ∧
    resultOfCompletions (fun _ => none) 0 "t0"
        ⟨"u", ⟨"u", "t", "c", none, "x", "unknown"⟩⟩
        [(0, .scalar (25, none)), (1, .scalar (0, none)),
          (2, .scalar (10, none)), (3, .many []), (4, .many []),
          (5, .many [])] =
      resultOfCompletions (fun _ => none) 0 "t0"
        ⟨"u", ⟨"u", "t", "c", none, "x", "unknown"⟩⟩
        [(5, .many []), (3, .many []), (1, .scalar (0, none)),
          (0, .scalar (25, none)), (4, .many []),
          (2, .scalar (10, none))] :=
  ⟨(C5_canonical_flag_order (fun _ => none) 0 "t0"
      ⟨"u", "t", "c", none, "x", "unknown"⟩ "u"
      (25, some ⟨"parity", "p", "high"⟩) (0, none)
      (10, some ⟨"sentiment", "s", "medium"⟩)
      (some [(5, some ⟨"company", "h", "low"⟩)])
      ⟨"u", ⟨"u", "t", "c", none, "x", "unknown"⟩⟩).1,
   (C5_canonical_flag_order (fun _ => none) 0 "t0"
      ⟨"u", "t", "c", none, "x", "unknown"⟩ "u"
      (25, some ⟨"parity", "p", "high"⟩) (0, none)
      (10, some ⟨"sentiment", "s", "medium"⟩)
      (some [(5, some ⟨"company", "h", "low"⟩)])
      ⟨"u", ⟨"u", "t", "c", none, "x", "unknown"⟩⟩).2
     [(0, .scalar (25, none)), (1, .scalar (0, none)),
       (2, .scalar (10, none)), (3, .many []), (4, .many []),
       (5, .many [])]
     [(5, .many []), (3, .many []), (1, .scalar (0, none)),
       (0, .scalar (25, none)), (4, .many []), (2, .scalar (10, none))]
     (by decide) (by decide)⟩

/-- C6: the age signal is a total function of the posting date that
never errors: missing or unparseable posted date gives (0, none); an
age in whole days strictly greater than 60 gives (+30, high-severity
age flag); strictly greater than 30 but not greater than 60 gives
(+15, medium-severity age flag); otherwise (0, none).  The age is the
floored whole-day difference between now (UTC) and the parsed posting
timestamp. -/
theorem C6_age_signal (parse : String → Option Int) (now : Int) :
    (∀ pd : Option String,
      (∀ s, pd = some s → s = "" ∨ parse s = none) →
      _calculate_age_delta parse now pd = (0, none)) ∧
    (∀ (s : String) (ts : Int), s ≠ "" → parse s = some ts →
      (60 < (now - ts).fdiv 86400 →
        _calculate_age_delta parse now (some s) =
          (WEIGHT_AGE_OLD, some ⟨"age",
            "Posted " ++ toString ((now - ts).fdiv 86400) ++
              " days ago — stale listings often indicate ghost jobs",
            "high"⟩)) ∧
      (30 < (now - ts).fdiv 86400 → (now - ts).fdiv 86400 ≤ 60 →
        _calculate_age_delta parse now (some s) =
          (WEIGHT_AGE_MEDIUM, some ⟨"age",
            "Posted " ++ toString ((now - ts).fdiv 86400) ++
              " days ago — listing is aging",
            "medium"⟩)) ∧
      ((now - ts).fdiv 86400 ≤ 30 →
        _calculate_age_delta parse now (some s) = (0, none))) := by
  constructor
  · intro pd hpd
    cases h : pd with
    | none => simp [_calculate_age_delta]
    | some s =>
      rcases hpd s h with h1 | h1 <;> simp [_calculate_age_delta, h1]
  · intro s ts hs hp
    refine ⟨fun hgt => ?_, fun hgt hle => ?_, fun hle => ?_⟩ <;>
      simp only [_calculate_age_delta, if_neg hs, hp] <;>
      split_ifs <;> first | rfl | omega

/-- C6 witness: a missing date, an unparseable date, and parses landing
in the stale, aging and fresh bands. -/
theorem C6_age_signal_witness :
    _calculate_age_delta (fun _ => none) 8640000 none = (0, none) ∧
    _calculate_age_delta (fun _ => none) 8640000 (some "bad") = (0, none) ∧
    _calculate_age_delta (fun _ => some 0) 8640000 (some "d") =
      (WEIGHT_AGE_OLD, some ⟨"age",
        "Posted " ++ toString ((8640000 - 0 : Int).fdiv 86400) ++
          " days ago — stale listings often indicate ghost jobs",
        "high"⟩) ∧
    _calculate_age_delta (fun _ => some 0) 3888000 (some "d") =
      (WEIGHT_AGE_MEDIUM, some ⟨"age",
        "Posted " ++ toString ((3888000 - 0 : Int).fdiv 86400) ++
          " days ago — listing is aging",
        "medium"⟩) ∧
    _calculate_age_delta (fun _ => some 0) 864000 (some "d") = (0, none) :=
  ⟨(C6_age_signal (fun _ => none) 8640000).1 none (fun s h => by cases h),
   (C6_age_signal (fun _ => none) 8640000).1 (some "bad")
     (fun s h => Or.inr rfl),
   ((C6_age_signal (fun _ => some 0) 8640000).2 "d" 0 (by decide) rfl).1
     (by decide),
   ((C6_age_signal (fun _ => some 0) 3888000).2 "d" 0 (by decide) rfl).2.1
     (by decide) (by decide),
   ((C6_age_signal (fun _ => some 0) 864000).2 "d" 0 (by decide) rfl).2.2
     (by decide)⟩

/-- The range loop yields the signal of the first range whose step
yields one when every earlier range stepped to nothing. -/
theorem salaryLoop_first (pre : List (String × String))
    (r : String × String) (suf : List (String × String)) (sig : Sig)
    (hpre : ∀ p ∈ pre, rangeStep p = Except.ok none)
    (hstep : rangeStep r = Except.ok (some sig)) :
    salaryLoop (pre ++ r :: suf) = Except.ok (some sig) := by
  induction pre with
  | nil => simp [salaryLoop, hstep]
  | cons p t ih =>
    have hp : rangeStep p = Except.ok none := hpre p (by simp)
    simp only [List.cons_append, salaryLoop, hp]
    exact ih (fun q hq => hpre q (by simp [hq]))

/-- The salary analyzer emits the first qualifying range's signal at the
head of its result. -/
theorem detect_salary_first (text : String)
    (pre suf : List (String × String)) (r : String × String) (sig : Sig)
    (hscan : findSalaryRanges text = pre ++ r :: suf)
    (hpre : ∀ p ∈ pre, rangeStep p = Except.ok none)
    (hstep : rangeStep r = Except.ok (some sig)) :
    _detect_salary_issues text =
      Except.ok (sig :: (competitiveSig text ++ doeSig text)) := by
  have hloop : salaryLoop (findSalaryRanges text) = Except.ok (some sig) := by
    rw [hscan]; exact salaryLoop_first pre r suf sig hpre hstep
  simp only [_detect_salary_issues, hloop, Option.toList,
    List.singleton_append, List.cons_append, List.nil_append]

/-- C7 counterexample: in the text `"$40 - $100 or $40 - $160"` the
range ("40", "160") has normalized ratio 4.0 ≥ 3.0 and on its own
yields the +8/medium signal, yet the analyzer emits only the +4/low
signal of the earlier 2.5x range — the loop breaks at the first range
with ratio ≥ 2.0, so the claim that a ratio ≥ 3.0 range always yields
+8/medium is false. -/
theorem C7_counterexample :
    ("40", "160") ∈ findSalaryRanges "$40 - $100 or $40 - $160" ∧
    3 * normAmount 40 ≤ normAmount 160 ∧ 0 < normAmount 40 ∧
    (∃ f : RedFlag, rangeStep ("40", "160") =
      Except.ok (some (WEIGHT_SALARY_RED_FLAG, some f)) ∧
      f.severity = "medium") ∧
    _detect_salary_issues "$40 - $100 or $40 - $160" =
      Except.ok [((WEIGHT_SALARY_RED_FLAG / 2 : Int), some ⟨"compensation",
        "Salary range is broad ($40,000–$100,000) — may indicate the role scope is unclear",
        "low"⟩)] ∧
    (∀ s ∈ [((WEIGHT_SALARY_RED_FLAG / 2 : Int),
        some (⟨"compensation",
          "Salary range is broad ($40,000–$100,000) — may indicate the role scope is unclear",
          "low"⟩ : RedFlag))],
      s.1 ≠ WEIGHT_SALARY_RED_FLAG) := by
  refine ⟨by decide, by decide, by decide,
    ⟨⟨"compensation",
      "Salary range is extremely wide ($40,000–$160,000, a 4.0x spread) — vague compensation suggests the role is not well-defined",
      "medium"⟩, by rfl, rfl⟩,
    by rfl, by decide⟩

/-- C7 (amended): the emitted salary-range signal is decided by the
first regex-matched range whose normalized amounts are positive with
ratio ≥ 2.0 — the loop stops there, so later ranges (even with ratio
≥ 3.0) are never examined: that first qualifying range yields
+8/medium when its own ratio is ≥ 3.0 and +4/low when it is in
[2.0, 3.0). -/
theorem C7_first_qualifying_range (text : String)
    (pre suf : List (String × String)) (lowS highS : String)
    (l0 h0 : Int)
    (hscan : findSalaryRanges text = pre ++ (lowS, highS) :: suf)
    (hpre : ∀ r ∈ pre, rangeStep r = Except.ok none)
    (hl : pyIntDigits lowS = some l0) (hh : pyIntDigits highS = some h0)
    (hpos : 0 < normAmount l0) :
    (3 * normAmount l0 ≤ normAmount h0 →
      ∃ (f : RedFlag) (rest : List Sig),
        _detect_salary_issues text =
          Except.ok ((WEIGHT_SALARY_RED_FLAG, some f) :: rest) ∧
        f.type = "compensation" ∧ f.severity = "medium") ∧
    (2 * normAmount l0 ≤ normAmount h0 →
      normAmount h0 < 3 * normAmount l0 →
      ∃ (f : RedFlag) (rest : List Sig),
        _detect_salary_issues text =
          Except.ok ((WEIGHT_SALARY_RED_FLAG / 2, some f) :: rest) ∧
        f.type = "compensation" ∧ f.severity = "low") := by
  constructor
  · intro h3
    have hh0 : 0 < normAmount h0 := by omega
    have hrest := detect_salary_first text pre suf (lowS, highS) _ hscan hpre
      (by
        simp only [rangeStep, hl, hh]
        rw [if_pos ⟨hh0, hpos⟩, if_pos h3])
    exact ⟨_, _, hrest, rfl, rfl⟩
  · intro h2 h3
    have hh0 : 0 < normAmount h0 := by omega
    have hrest := detect_salary_first text pre suf (lowS, highS) _ hscan hpre
      (by
        simp only [rangeStep, hl, hh]
        rw [if_pos ⟨hh0, hpos⟩, if_neg (by omega), if_pos h2])
    exact ⟨_, _, hrest, rfl, rfl⟩

/-- C7 witness: `"$40k–$160k"` (ratio 4.0) is the first and only range
and yields the wide-range +8/medium flag; `"$50 - $120"` (ratio 2.4)
yields the weaker +4/low flag. -/
theorem C7_first_qualifying_range_witness :
    (∃ (f : RedFlag) (rest : List Sig),
      _detect_salary_issues "$40k–$160k" =
        Except.ok ((WEIGHT_SALARY_RED_FLAG, some f) :: rest) ∧
      f.type = "compensation" ∧ f.severity = "medium") ∧
    (∃ (f : RedFlag) (rest : List Sig),
      _detect_salary_issues "$50 - $120" =
        Except.ok ((WEIGHT_SALARY_RED_FLAG / 2, some f) :: rest) ∧
      f.type = "compensation" ∧ f.severity = "low") :=
  ⟨(C7_first_qualifying_range "$40k–$160k" [] [] "40" "160" 40 160
      (by decide) (by simp) (by decide) (by decide) (by decide)).1
    (by decide),
   (C7_first_qualifying_range "$50 - $120" [] [] "50" "120" 50 120
      (by decide) (by simp) (by decide) (by decide) (by decide)).2
    (by decide) (by decide)⟩

/-- Membership in a conditional singleton rule block. -/
theorem mem_cond_singleton {α : Type} (c : Prop) [Decidable c]
    (x a : α) : x ∈ (if c then [a] else []) ↔ c ∧ x = a := by
  split_ifs <;> simp_all

/-- Membership in a two-tier conditional rule block. -/
theorem mem_cond_pair {α : Type} (c1 c2 : Prop) [Decidable c1]
    [Decidable c2] (x a b : α) :
    x ∈ (if c1 then [a] else if c2 then [b] else []) ↔
      (c1 ∧ x = a) ∨ (¬c1 ∧ c2 ∧ x = b) := by
  split_ifs <;> simp_all

/-- Only the no-web-presence rule carries the +15 delta: membership of
a (15, flag) signal pins down both the flag and `articleCount = 0`. -/
theorem company_intel_fifteen (company raw_text title : String)
    (info : NewsInfo) (hc : company ≠ "") (f : RedFlag) :
    (WEIGHT_NO_WEB_PRESENCE, some f) ∈
        company_intel company raw_text title info ↔
      info.articleCount = 0 ∧ f = noWebPresenceFlag company := by
  simp only [company_intel, if_neg hc, List.mem_append,
    mem_cond_singleton, mem_cond_pair, Prod.mk.injEq,
    WEIGHT_NO_WEB_PRESENCE, WEIGHT_STAFFING_AGENCY,
    WEIGHT_CONTROVERSIAL_MODEL, WEIGHT_TINY_COMPANY_BIG_HIRE,
    WEIGHT_HIGH_TURNOVER_SIGNALS]
  norm_num

/-- C8: in the company legitimacy analyzer the no-web-presence rule
fires — adding +15 with a medium-severity company flag — exactly when
the research article count equals 0; the sentinel -1 (unavailable or
unconfigured research) suppresses the rule rather than triggering
it. -/
theorem C8_no_web_presence (company raw_text title : String)
    (info : NewsInfo) (hc : company ≠ "") :
    ((∃ f : RedFlag, f.type = "company" ∧ f.severity = "medium" ∧
        (WEIGHT_NO_WEB_PRESENCE, some f) ∈
          company_intel company raw_text title info) ↔
      info.articleCount = 0) ∧
    (info.articleCount = -1 →
      ∀ f : RedFlag, (WEIGHT_NO_WEB_PRESENCE, some f) ∉
        company_intel company raw_text title info) := by
  constructor
  · constructor
    · rintro ⟨f, _, _, hmem⟩
      exact ((company_intel_fifteen company raw_text title info hc f).mp
        hmem).1
    · intro h0
      exact ⟨noWebPresenceFlag company, rfl, rfl,
        (company_intel_fifteen company raw_text title info hc _).mpr
          ⟨h0, rfl⟩⟩
  · intro hneg f hmem
    have h :=
      ((company_intel_fifteen company raw_text title info hc f).mp hmem).1
    rw [hneg] at h
    exact absurd h (by decide)

/-- C8 witness: a company with zero research articles gets the flag; a
company with the -1 sentinel does not. -/
theorem C8_no_web_presence_witness :
    (∃ f : RedFlag, f.type = "company" ∧ f.severity = "medium" ∧
      (WEIGHT_NO_WEB_PRESENCE, some f) ∈
        company_intel "Acme" "plain text" "Engineer" ⟨0, false, ""⟩) ∧
    (∀ f : RedFlag, (WEIGHT_NO_WEB_PRESENCE, some f) ∉
      company_intel "Acme" "plain text" "Engineer" ⟨-1, false, ""⟩) :=
  ⟨(C8_no_web_presence "Acme" "plain text" "Engineer" ⟨0, false, ""⟩
      (by decide)).1.mpr rfl,
   (C8_no_web_presence "Acme" "plain text" "Engineer" ⟨-1, false, ""⟩
      (by decide)).2 rfl⟩

/-- C9: the Heuristic Text Analyzer and the Company Legitimacy Analyzer
are deterministic (pure) in their inputs — in this embedding both are
plain functions of (rawText, title) respectively (company, rawText,
title, injected research), so two evaluations on identical inputs are
identical in order and content. -/
theorem C9_analyzers_deterministic (raw_text title company : String)
    (info : NewsInfo) :
    heuristic_analysis raw_text title = heuristic_analysis raw_text title ∧
    company_intel company raw_text title info =
      company_intel company raw_text title info :=
  ⟨rfl, rfl⟩

/-- C10: for every title, the Heuristic Text Analyzer returns the empty
signal list on an empty rawText — no rule fires, including the
vague-title rule, even though that rule depends only on the title
("talent pool" does match the vague-title patterns). -/
theorem C10_empty_text_no_signals (title : String) :
    heuristic_analysis "" title = Except.ok [] ∧
    heuristic_analysis "" "talent pool" = Except.ok [] ∧
    _is_vague_title "talent pool" = true := by
  refine ⟨?_, ?_, by decide⟩ <;> simp [heuristic_analysis]

end GhostJobs
